import Mathlib

/-
Verification of the scopedlocalref library (src/scopedlocalref.hpp) against
its specification.  The library provides one component, the class template
ScopedLocalRef over a deleter type and a pack of resource types: an RAII
guard holding a tuple of resources, a deleter, and a released flag.

Embedding choices, traceable to the source:

A resource value is modelled by the inductive type Res.  The template is
generic over the resource types; the specification and its scenarios
exercise it with scalar handle values (raw pointers, descriptors, integer
counts), so Res covers exactly those: a pointer is represented by its
address, with address 0 the null pointer, and an integer resource by its
value.  For such scalar types the C++ move operations copy the value and
leave the source element unchanged, and a default-constructed value is the
null pointer respectively 0.

The deleter is modelled by an identity token (a natural number): the guard
never inspects the deleter, it only applies it, so the observable behaviour
of a run is which deleter token is invoked with which argument list.  Every
function that can invoke the deleter returns, next to the new state, the
list of observable events it produces: Event.invoke d args records the call
std_apply(m_deleter, m_resources), and Event.logError records the stderr
line printed by the catch branch of cleanup.  Whether a given deleter
throws on given arguments is a property of the user code, not of the guard;
it is threaded through as a parameter fails : Nat -> List Res -> Bool.

Methods that throw std::logic_error are modelled with Except GuardError;
the throw in the source precedes every mutation, so these methods take the
state and return no new state on the error path.
-/

namespace ScopedLocalRefSpec

/-- Resource values stored by a guard: a pointer-shaped resource carrying
its address (0 is the null pointer) or a plain integer value. -/
inductive Res where
  | ptr (addr : Nat)
  | intVal (v : Int)
  deriving DecidableEq, Repr

/-- Default-constructed form of a resource position, as produced by the
assignment of a default-constructed tuple in cleanup (line 103 of the
source): a default-constructed pointer is null and a default-constructed
integer is 0.  The declared type of a tuple position never changes, so the
default form follows the shape of the stored value. -/
def resetRes : Res → Res
  | Res.ptr _ => Res.ptr 0
  | Res.intVal _ => Res.intVal 0

/-- ValidityCheck trait (lines 28 to 70 of the source): the primary
template accepts every value; the specializations for pointer types accept
exactly the non-null pointers. -/
def Res.valid : Res → Bool
  | Res.ptr a => a != 0
  | Res.intVal _ => true

/-- Observable events produced by guard operations: an invocation of the
deleter with an argument list (in declared order), or the diagnostic line
written to stderr when the deleter throws during cleanup. -/
inductive Event where
  | invoke (deleter : Nat) (args : List Res)
  | logError
  deriving DecidableEq, Repr

/-- State of one ScopedLocalRef instance (lines 86 to 88 of the source):
the resource tuple, the deleter token, and the released flag. -/
structure Guard where
  m_resources : List Res
  m_deleter : Nat
  m_released : Bool
  deriving DecidableEq, Repr

/-- Error thrown by get, set and steal on a released guard
(std::logic_error in the source). -/
inductive GuardError where
  | alreadyReleased
  deriving DecidableEq, Repr

/-- Constructor (lines 117 to 120): stores the deleter and the resources in
declared order; the released flag starts false.  No event is produced. -/
def construct (deleter : Nat) (resources : List Res) : Guard :=
  { m_resources := resources, m_deleter := deleter, m_released := false }

/-- ScopedLocalRef::cleanup (lines 96 to 106): if the guard is not yet
released, apply the deleter to the resources; a throw from the deleter is
caught and logged to stderr instead of propagating; afterwards, in the
success case and in the failure case alike, the resources are assigned a
default-constructed tuple and the released flag is set.  If the guard is
already released, nothing happens.  Both the destructor (line 125) and
release() (line 288) delegate to this function.  Returns the new state and
the events produced. -/
def cleanup (fails : Nat → List Res → Bool) (g : Guard) : Guard × List Event :=
  if g.m_released then (g, [])
  else
    ({ m_resources := g.m_resources.map resetRes,
       m_deleter := g.m_deleter,
       m_released := true },
     Event.invoke g.m_deleter g.m_resources ::
       (if fails g.m_deleter g.m_resources then [Event.logError] else []))

/-- ScopedLocalRef::get and its indexed overload (lines 167 to 184): throw
std::logic_error if released, otherwise return the resource at position I
(0 for the untemplated overload).  An out-of-range I is rejected at compile
time by a static_assert, so a caller only ever passes an index below the
arity; theorems about an index therefore carry that bound. -/
def Guard.get (g : Guard) (i : Nat) : Except GuardError Res :=
  if g.m_released then Except.error GuardError.alreadyReleased
  else Except.ok (g.m_resources.getD i (Res.intVal 0))

/-- ScopedLocalRef::try_get and its indexed overload (lines 191 to 207):
return an empty optional if released, otherwise the resource at position I
wrapped in an optional. -/
def Guard.tryGet (g : Guard) (i : Nat) : Option Res :=
  if g.m_released then none
  else some (g.m_resources.getD i (Res.intVal 0))

/-- ScopedLocalRef::set and its indexed overload (lines 216 to 234): throw
std::logic_error if released, otherwise overwrite position I with the new
resource.  No deleter call occurs, in particular not on the value being
overwritten. -/
def Guard.set (g : Guard) (i : Nat) (v : Res) : Except GuardError Guard :=
  if g.m_released then Except.error GuardError.alreadyReleased
  else Except.ok { g with m_resources := g.m_resources.set i v }

/-- ScopedLocalRef::try_set and its indexed overload (lines 245 to 268):
return status 1 if released, otherwise overwrite position I and return
status 0.  Never throws. -/
def Guard.trySet (g : Guard) (i : Nat) (v : Res) : Guard × Int :=
  if g.m_released then (g, 1)
  else ({ g with m_resources := g.m_resources.set i v }, 0)

/-- ScopedLocalRef::operator bool (lines 277 to 281): true exactly when the
guard is not released and every stored resource passes the ValidityCheck
for its type. -/
def Guard.toBool (g : Guard) : Bool :=
  !g.m_released && g.m_resources.all Res.valid

/-- ScopedLocalRef::steal (lines 299 to 303): throw std::logic_error if
released; otherwise mark the guard released and return the resource tuple
to the caller.  The deleter is not invoked.  Returns the stolen tuple and
the new state of the guard. -/
def Guard.steal (g : Guard) : Except GuardError (List Res × Guard) :=
  if g.m_released then Except.error GuardError.alreadyReleased
  else Except.ok (g.m_resources, { g with m_released := true })

/-- Move constructor (lines 134 to 139): the new guard takes the resources,
the deleter and the released flag of the source; the source is then marked
released.  No deleter call occurs.  Moving a tuple of scalar resources
copies the elements, so the source keeps its previous resource values; the
move constructor contains no assignment resetting them.  Returns the pair
(destination, source after the move). -/
def moveConstruct (other : Guard) : Guard × Guard :=
  ({ m_resources := other.m_resources,
     m_deleter := other.m_deleter,
     m_released := other.m_released },
   { m_resources := other.m_resources,
     m_deleter := other.m_deleter,
     m_released := true })

/-- Move assignment (lines 150 to 159).  The parameter same models the
address comparison of destination and source on line 151: when it is true
the operands are one and the same object and nothing happens.  Otherwise
the destination first runs cleanup on its own state, then adopts the
resources, the deleter and the released flag of the source, and the source
is marked released.  Returns the destination after, the source after, and
the events produced (those of the cleanup of the destination). -/
def moveAssign (fails : Nat → List Res → Bool) (same : Bool)
    (dst src : Guard) : Guard × Guard × List Event :=
  if same then (dst, src, [])
  else
    let c := cleanup fails dst
    ({ m_resources := src.m_resources,
       m_deleter := src.m_deleter,
       m_released := src.m_released },
     { m_resources := src.m_resources,
       m_deleter := src.m_deleter,
       m_released := true },
     c.2)

/-- Operations a client can perform on one guard instance during its
lifetime.  moveAssignIn src models this instance being the destination of a
move assignment from a distinct source guard; moveOut models this instance
being the source of a move construction. -/
inductive Op where
  | release
  | steal
  | getOp (i : Nat)
  | tryGetOp (i : Nat)
  | boolOp
  | setOp (i : Nat) (v : Res)
  | trySetOp (i : Nat) (v : Res)
  | moveOut
  | moveAssignIn (src : Guard)
  deriving DecidableEq, Repr

/-- Effect of one operation on the state of this instance, together with
the events the operation produces on this instance.  Operations that throw
on a released guard leave the state unchanged, as in the source, where the
throw precedes every mutation. -/
def step (fails : Nat → List Res → Bool) (g : Guard) : Op → Guard × List Event
  | Op.release => cleanup fails g
  | Op.steal =>
      match g.steal with
      | Except.ok p => (p.2, [])
      | Except.error _ => (g, [])
  | Op.getOp _ => (g, [])
  | Op.tryGetOp _ => (g, [])
  | Op.boolOp => (g, [])
  | Op.setOp i v =>
      match g.set i v with
      | Except.ok g2 => (g2, [])
      | Except.error _ => (g, [])
  | Op.trySetOp i v => ((g.trySet i v).1, [])
  | Op.moveOut => ((moveConstruct g).2, [])
  | Op.moveAssignIn src =>
      let r := moveAssign fails false g src
      (r.1, r.2.2)

/-- Run a list of operations on one instance, accumulating the events. -/
def run (fails : Nat → List Res → Bool) (g : Guard) :
    List Op → Guard × List Event
  | [] => (g, [])
  | op :: ops =>
      let s := step fails g op
      let r := run fails s.1 ops
      (r.1, s.2 ++ r.2)

/-- All events produced on one instance across its whole lifetime: the
operations are performed in order, then the instance is destroyed (the
destructor calls cleanup). -/
def lifetime (fails : Nat → List Res → Bool) (g : Guard)
    (ops : List Op) : List Event :=
  let r := run fails g ops
  r.2 ++ (cleanup fails r.1).2

/-- Whether an event is an invocation of the deleter. -/
def isInvoke : Event → Bool
  | Event.invoke _ _ => true
  | Event.logError => false

/-- Number of deleter invocations in an event list. -/
def invokeCount (evs : List Event) : Nat :=
  (evs.filter isInvoke).length

/-- Read-only operations: they neither mutate the instance nor produce
events. -/
def isRead : Op → Bool
  | Op.getOp _ => true
  | Op.tryGetOp _ => true
  | Op.boolOp => true
  | _ => false

/-- Whether an operation is a move assignment into this instance. -/
def isMoveAssignIn : Op → Bool
  | Op.moveAssignIn _ => true
  | _ => false

/-- Upper bound on the number of deleter invocations an instance in a given
state can still produce before a move assignment into it occurs. -/
def countBound (g : Guard) : Nat :=
  if g.m_released then 0 else 1

theorem invokeCount_append (a b : List Event) :
    invokeCount (a ++ b) = invokeCount a + invokeCount b := by
  simp [invokeCount, List.filter_append]

theorem cleanup_of_released (fails : Nat → List Res → Bool) (g : Guard)
    (h : g.m_released = true) : cleanup fails g = (g, []) := by
  simp [cleanup, h]

theorem cleanup_fst_released (fails : Nat → List Res → Bool) (g : Guard) :
    (cleanup fails g).1.m_released = true := by
  by_cases h : g.m_released <;> simp [cleanup, h]

theorem invokeCount_cleanup (fails : Nat → List Res → Bool) (g : Guard) :
    invokeCount (cleanup fails g).2 = countBound g := by
  by_cases h : g.m_released
  · simp [cleanup, countBound, h, invokeCount]
  · by_cases hf : fails g.m_deleter g.m_resources <;>
      simp [cleanup, countBound, h, hf, invokeCount, isInvoke]

theorem filter_invoke_cleanup (fails : Nat → List Res → Bool) (g : Guard)
    (h : g.m_released = false) :
    (cleanup fails g).2.filter isInvoke =
      [Event.invoke g.m_deleter g.m_resources] := by
  by_cases hf : fails g.m_deleter g.m_resources <;>
    simp [cleanup, h, hf, isInvoke]

theorem lifetime_nil (fails : Nat → List Res → Bool) (g : Guard) :
    lifetime fails g [] = (cleanup fails g).2 := by
  simp [lifetime, run]

theorem lifetime_cons (fails : Nat → List Res → Bool) (g : Guard)
    (op : Op) (ops : List Op) :
    lifetime fails g (op :: ops) =
      (step fails g op).2 ++ lifetime fails (step fails g op).1 ops := by
  simp [lifetime, run, List.append_assoc]

theorem step_bound (fails : Nat → List Res → Bool) (g : Guard) (op : Op)
    (h : isMoveAssignIn op = false) :
    invokeCount (step fails g op).2 + countBound (step fails g op).1 ≤
      countBound g := by
  cases op with
  | release =>
      have h1 := invokeCount_cleanup fails g
      have h2 : countBound (cleanup fails g).1 = 0 := by
        simp [countBound, cleanup_fst_released]
      simp [step, h1, h2]
  | steal =>
      by_cases hr : g.m_released <;>
        simp [step, Guard.steal, hr, invokeCount, countBound]
  | getOp i => simp [step, invokeCount, countBound]
  | tryGetOp i => simp [step, invokeCount, countBound]
  | boolOp => simp [step, invokeCount, countBound]
  | setOp i v =>
      by_cases hr : g.m_released <;>
        simp [step, Guard.set, hr, invokeCount, countBound]
  | trySetOp i v =>
      by_cases hr : g.m_released <;>
        simp [step, Guard.trySet, hr, invokeCount, countBound]
  | moveOut =>
      simp [step, moveConstruct, invokeCount, countBound]
  | moveAssignIn src => simp [isMoveAssignIn] at h

theorem lifetime_bound (fails : Nat → List Res → Bool) (ops : List Op)
    (g : Guard) (h : ∀ op ∈ ops, isMoveAssignIn op = false) :
    invokeCount (lifetime fails g ops) ≤ countBound g := by
  induction ops generalizing g with
  | nil => simp [lifetime_nil, invokeCount_cleanup]
  | cons op ops ih =>
      rw [lifetime_cons, invokeCount_append]
      have h1 := step_bound fails g op (h op (List.mem_cons_self op ops))
      have h2 := ih (step fails g op).1
        (fun o ho => h o (List.mem_cons_of_mem op ho))
      omega

theorem step_of_read (fails : Nat → List Res → Bool) (g : Guard) (op : Op)
    (h : isRead op = true) : step fails g op = (g, []) := by
  cases op <;> simp_all [isRead, step]

theorem run_of_reads (fails : Nat → List Res → Bool) (ops : List Op)
    (g : Guard) (h : ∀ op ∈ ops, isRead op = true) :
    run fails g ops = (g, []) := by
  induction ops with
  | nil => rfl
  | cons op ops ih =>
      have hs := step_of_read fails g op (h op (List.mem_cons_self op ops))
      have hr := ih (fun o ho => h o (List.mem_cons_of_mem op ho))
      simp [run, hs, hr]

theorem getD_eq_of_getElem (l : List Res) (i : Nat) (r d : Res)
    (h : l[i]? = some r) : l.getD i d = r := by
  simp [List.getD_eq_getElem?_getD, h]

/-- Claim C1: for every guard constructed with cleanup routine C (modelled
by the deleter token d) and resources r0..rn-1, on which release and steal
are never called and which is never moved from (here: only read operations
are performed before destruction), destroying the guard invokes C exactly
once, with arguments r0..rn-1 in declared order. -/
theorem C1_destroy_invokes_cleanup_once (fails : Nat → List Res → Bool)
    (d : Nat) (rs : List Res) (ops : List Op)
    (h : ∀ op ∈ ops, isRead op = true) :
    (lifetime fails (construct d rs) ops).filter isInvoke =
      [Event.invoke d rs] := by
  have hr := run_of_reads fails ops (construct d rs) h
  simp [lifetime, hr]
  exact filter_invoke_cleanup fails (construct d rs) rfl

/-- Witness for C1: deleter token 3, resources (ptr 1, intVal 7), one
interleaved read. -/
theorem C1_witness :
    (∀ op ∈ [Op.getOp 0], isRead op = true) ∧
    (lifetime (fun _ _ => false) (construct 3 [Res.ptr 1, Res.intVal 7])
        [Op.getOp 0]).filter isInvoke =
      [Event.invoke 3 [Res.ptr 1, Res.intVal 7]] :=
  ⟨by decide, C1_destroy_invokes_cleanup_once (fun _ _ => false) 3
    [Res.ptr 1, Res.intVal 7] [Op.getOp 0] (by decide)⟩

/-- Counterexample to claim C2 as stated: a move assignment into a live
instance first releases the instance, which is the first deleter
invocation on it, and then hands it a second live ownership, whose cleanup
runs at destruction, the second deleter invocation.  Two cleanup
invocations therefore occur on one instance within one lifetime, refuting
the bound of at most one. -/
theorem C2_counterexample :
    ¬ invokeCount (lifetime (fun _ _ => false) (construct 0 [Res.intVal 5])
        [Op.moveAssignIn (construct 1 [Res.intVal 7])]) ≤ 1 := by decide

/-- Claim C2 (amended): for every guard instance and every sequence of
operations over its lifetime that contains no move assignment into the
instance, the cleanup routine is invoked at most once on that instance; in
particular a second release after a first release does not invoke the
cleanup routine again. -/
theorem C2_cleanup_at_most_once (fails : Nat → List Res → Bool) (d : Nat)
    (rs : List Res) (ops : List Op)
    (h : ∀ op ∈ ops, isMoveAssignIn op = false) :
    invokeCount (lifetime fails (construct d rs) ops) ≤ 1 :=
  lifetime_bound fails ops (construct d rs) h

/-- Witness for C2: releasing twice and destroying still invokes the
deleter at most once. -/
theorem C2_witness :
    (∀ op ∈ [Op.release, Op.release], isMoveAssignIn op = false) ∧
    invokeCount (lifetime (fun _ _ => false) (construct 0 [Res.intVal 5])
      [Op.release, Op.release]) ≤ 1 :=
  ⟨by decide, C2_cleanup_at_most_once (fun _ _ => false) 0 [Res.intVal 5]
    [Op.release, Op.release] (by decide)⟩

/-- Counterexample to claim C3 as stated: after move construction from a
non-released guard holding the integer resource 5, the source still holds
the value 5; its resources are not reset to the default form, which would
be the integer 0. -/
theorem C3_counterexample :
    (moveConstruct (construct 0 [Res.intVal 5])).2.m_resources ≠
      ((construct 0 [Res.intVal 5]).m_resources.map resetRes) := by decide

/-- Claim C3 (amended): move construction from a non-released guard
transfers the resources, the cleanup routine and the released flag to the
new guard and leaves the source with released true, without invoking the
cleanup routine; destroying the moved-from source afterwards produces no
event at all.  The resources of the source keep their previous scalar
values instead of being reset to default values. -/
theorem C3_move_construct (fails : Nat → List Res → Bool) (g : Guard)
    (h : g.m_released = false) :
    (moveConstruct g).1 = g ∧
    (moveConstruct g).1.m_released = false ∧
    (moveConstruct g).2.m_released = true ∧
    (moveConstruct g).2.m_resources = g.m_resources ∧
    lifetime fails g [Op.moveOut] = [] := by
  refine ⟨rfl, h, rfl, rfl, ?_⟩
  rw [lifetime_cons]
  have hs : step fails g Op.moveOut = ((moveConstruct g).2, []) := rfl
  rw [hs, lifetime_nil]
  simp [cleanup_of_released fails (moveConstruct g).2 rfl]

/-- Witness for C3 at the concrete guard with deleter token 2 and one
pointer resource. -/
theorem C3_witness :
    (construct 2 [Res.ptr 9]).m_released = false ∧
    ((moveConstruct (construct 2 [Res.ptr 9])).1 = construct 2 [Res.ptr 9] ∧
     (moveConstruct (construct 2 [Res.ptr 9])).1.m_released = false ∧
     (moveConstruct (construct 2 [Res.ptr 9])).2.m_released = true ∧
     (moveConstruct (construct 2 [Res.ptr 9])).2.m_resources =
       (construct 2 [Res.ptr 9]).m_resources ∧
     lifetime (fun _ _ => false) (construct 2 [Res.ptr 9]) [Op.moveOut] = []) :=
  ⟨rfl, C3_move_construct (fun _ _ => false) (construct 2 [Res.ptr 9]) rfl⟩

/-- Claim C4: on a released guard, get, set and steal raise the
AlreadyReleased error while tryGet returns an absent result and trySet
returns status 1 without raising; on a non-released guard, get returns the
stored resource at the requested position and trySet returns status 0. -/
theorem C4_release_error_contract (g : Guard) (i : Nat) (v : Res) :
    (g.m_released = true →
      g.get i = Except.error GuardError.alreadyReleased ∧
      g.set i v = Except.error GuardError.alreadyReleased ∧
      g.steal = Except.error GuardError.alreadyReleased ∧
      g.tryGet i = none ∧
      g.trySet i v = (g, 1)) ∧
    (g.m_released = false →
      (∀ r, g.m_resources[i]? = some r → g.get i = Except.ok r) ∧
      (g.trySet i v).2 = 0) := by
  constructor
  · intro h
    simp [Guard.get, Guard.set, Guard.steal, Guard.tryGet, Guard.trySet, h]
  · intro h
    refine ⟨?_, ?_⟩
    · intro r hr
      simp [Guard.get, h, List.getD_eq_getElem?_getD, hr]
    · simp [Guard.trySet, h]

/-- Witness for C4: a released guard fails get with AlreadyReleased; a
fresh two-resource guard returns the stored value at position 1. -/
theorem C4_witness :
    Guard.get (⟨[Res.ptr 1], 0, true⟩ : Guard) 0 =
      Except.error GuardError.alreadyReleased ∧
    Guard.get (construct 0 [Res.ptr 1, Res.intVal 3]) 1 =
      Except.ok (Res.intVal 3) :=
  ⟨((C4_release_error_contract (⟨[Res.ptr 1], 0, true⟩ : Guard)
      0 (Res.ptr 2)).1 rfl).1,
   ((C4_release_error_contract (construct 0 [Res.ptr 1, Res.intVal 3])
      1 (Res.ptr 2)).2 rfl).1 (Res.intVal 3) (by decide)⟩

/-- Claim C5: the boolean conversion yields true exactly when the guard is
not released and every stored resource passes the validity predicate of
its type; the default policy accepts every integer value and the pointer
policy rejects exactly the null pointer; a never-released guard holding a
single null pointer converts to false and the same guard holding a
non-null pointer converts to true. -/
theorem C5_bool_conversion (g : Guard) :
    (g.toBool = true ↔
      (g.m_released = false ∧ ∀ r ∈ g.m_resources, Res.valid r = true)) ∧
    (∀ a : Nat, Res.valid (Res.ptr a) = true ↔ a ≠ 0) ∧
    (∀ v : Int, Res.valid (Res.intVal v) = true) ∧
    (construct 0 [Res.ptr 0]).toBool = false ∧
    (construct 0 [Res.ptr 1]).toBool = true := by
  refine ⟨?_, ?_, fun v => rfl, by decide, by decide⟩
  · simp [Guard.toBool, List.all_eq_true, Bool.not_eq_true']
  · intro a
    simp [Res.valid]

/-- Witness for C5: the two concrete conversions named by the claim. -/
theorem C5_witness :
    (construct 0 [Res.ptr 0]).toBool = false ∧
    (construct 0 [Res.ptr 1]).toBool = true :=
  ⟨(C5_bool_conversion (construct 0 [Res.ptr 0])).2.2.2.1,
   (C5_bool_conversion (construct 0 [Res.ptr 1])).2.2.2.2⟩

/-- Claim C6: steal on a non-released guard returns the complete resource
tuple in declared order, marks the guard released, and never invokes the
cleanup routine; the subsequent destruction of the guard invokes no
cleanup call either, so the whole lifetime trace of a guard whose only
operation is steal is empty. -/
theorem C6_steal (fails : Nat → List Res → Bool) (g : Guard)
    (h : g.m_released = false) :
    (∃ g2, g.steal = Except.ok (g.m_resources, g2) ∧
      g2.m_released = true ∧ cleanup fails g2 = (g2, [])) ∧
    lifetime fails g [Op.steal] = [] := by
  constructor
  · refine ⟨{ g with m_released := true }, ?_, rfl, ?_⟩
    · simp [Guard.steal, h]
    · exact cleanup_of_released fails _ rfl
  · rw [lifetime_cons]
    have hs : step fails g Op.steal = ({ g with m_released := true }, []) := by
      simp [step, Guard.steal, h]
    rw [hs, lifetime_nil]
    simp [cleanup_of_released fails { g with m_released := true } rfl]

/-- Witness for C6 at the guard of the specification scenario: resources
(ptr 1, intVal 7). -/
theorem C6_witness :
    lifetime (fun _ _ => false) (construct 0 [Res.ptr 1, Res.intVal 7])
      [Op.steal] = [] :=
  (C6_steal (fun _ _ => false) (construct 0 [Res.ptr 1, Res.intVal 7])
    rfl).2

/-- Claim C7: releasing (or destroying) a non-released guard invokes the
cleanup routine with the stored resources; a failure raised by the routine
is caught and reported through the diagnostic log event instead of being
propagated, cleanup being a total function into a state and an event list
with no error outcome; in the success case and in the failure case alike
the resources are afterwards reset to their default form and the released
flag is set. -/
theorem C7_release_swallows_failure (fails : Nat → List Res → Bool)
    (g : Guard) (h : g.m_released = false) :
    (cleanup fails g).1.m_released = true ∧
    (cleanup fails g).1.m_resources = g.m_resources.map resetRes ∧
    (cleanup fails g).2 =
      (if fails g.m_deleter g.m_resources then
        [Event.invoke g.m_deleter g.m_resources, Event.logError]
      else [Event.invoke g.m_deleter g.m_resources]) := by
  by_cases hf : fails g.m_deleter g.m_resources <;> simp [cleanup, h, hf]

/-- Witness for C7 at a concrete guard whose deleter throws: the failure
is logged, the resources are reset and the flag is set. -/
theorem C7_witness :
    (construct 4 [Res.ptr 2]).m_released = false ∧
    ((cleanup (fun _ _ => true) (construct 4 [Res.ptr 2])).1.m_released =
        true ∧
     (cleanup (fun _ _ => true) (construct 4 [Res.ptr 2])).1.m_resources =
       (construct 4 [Res.ptr 2]).m_resources.map resetRes ∧
     (cleanup (fun _ _ => true) (construct 4 [Res.ptr 2])).2 =
       [Event.invoke 4 [Res.ptr 2], Event.logError]) :=
  ⟨rfl, C7_release_swallows_failure (fun _ _ => true)
    (construct 4 [Res.ptr 2]) rfl⟩

/-- Claim C8: move assignment between distinct guards first performs the
release of the destination, invoking the deleter of the destination on its
old resources exactly when the destination was not yet released, then
transfers the resources, the deleter and the released flag of the source
into the destination and marks the source released; self move assignment
changes nothing and invokes no cleanup. -/
theorem C8_move_assign (fails : Nat → List Res → Bool) (dst src : Guard) :
    ((moveAssign fails false dst src).1 =
      { m_resources := src.m_resources, m_deleter := src.m_deleter,
        m_released := src.m_released } ∧
     (moveAssign fails false dst src).2.1.m_released = true ∧
     (dst.m_released = false →
       ((moveAssign fails false dst src).2.2).filter isInvoke =
         [Event.invoke dst.m_deleter dst.m_resources]) ∧
     (dst.m_released = true →
       (moveAssign fails false dst src).2.2 = [])) ∧
    moveAssign fails true dst dst = (dst, dst, []) := by
  refine ⟨⟨rfl, rfl, ?_, ?_⟩, rfl⟩
  · intro h
    simpa [moveAssign] using filter_invoke_cleanup fails dst h
  · intro h
    simp [moveAssign, cleanup_of_released fails dst h]

/-- Witness for C8: a live destination is cleaned up first, the
destination then holds the source state, and self move assignment is a
no-op. -/
theorem C8_witness :
    (moveAssign (fun _ _ => false) false (construct 0 [Res.intVal 5])
        (construct 1 [Res.intVal 7])).1 =
      { m_resources := [Res.intVal 7], m_deleter := 1,
        m_released := false } ∧
    ((moveAssign (fun _ _ => false) false (construct 0 [Res.intVal 5])
        (construct 1 [Res.intVal 7])).2.2).filter isInvoke =
      [Event.invoke 0 [Res.intVal 5]] ∧
    moveAssign (fun _ _ => false) true (construct 0 [Res.intVal 5])
        (construct 0 [Res.intVal 5]) =
      (construct 0 [Res.intVal 5], construct 0 [Res.intVal 5], []) :=
  ⟨(C8_move_assign (fun _ _ => false) (construct 0 [Res.intVal 5])
      (construct 1 [Res.intVal 7])).1.1,
   (C8_move_assign (fun _ _ => false) (construct 0 [Res.intVal 5])
      (construct 1 [Res.intVal 7])).1.2.2.1 rfl,
   (C8_move_assign (fun _ _ => false) (construct 0 [Res.intVal 5])
      (construct 0 [Res.intVal 5])).2⟩

/-- Claim C9: on a non-released guard, set and trySet replace only the
targeted position, produce no deleter invocation, in particular none on
the value being overwritten, and leave the other positions, the deleter
and the released flag unchanged; a later release or destruction invokes
the cleanup routine with the updated values. -/
theorem C9_set_frame (fails : Nat → List Res → Bool) (g : Guard) (i : Nat)
    (v : Res) (h : g.m_released = false) :
    (∃ g2, g.set i v = Except.ok g2 ∧
      g2.m_resources = g.m_resources.set i v ∧
      g2.m_deleter = g.m_deleter ∧
      g2.m_released = false ∧
      (∀ j, j ≠ i → g2.m_resources[j]? = g.m_resources[j]?) ∧
      (i < g.m_resources.length → g2.m_resources[i]? = some v) ∧
      (cleanup fails g2).2.filter isInvoke =
        [Event.invoke g.m_deleter (g.m_resources.set i v)]) ∧
    g.trySet i v =
      ({ g with m_resources := g.m_resources.set i v }, 0) ∧
    (step fails g (Op.setOp i v)).2 = [] ∧
    (step fails g (Op.trySetOp i v)).2 = [] := by
  refine ⟨⟨{ g with m_resources := g.m_resources.set i v },
    ?_, rfl, rfl, h, ?_, ?_, ?_⟩, ?_, ?_, rfl⟩
  · simp [Guard.set, h]
  · intro j hj
    exact List.getElem?_set_ne (Ne.symm hj)
  · intro hi
    exact List.getElem?_set_self hi
  · exact filter_invoke_cleanup fails
      { g with m_resources := g.m_resources.set i v } h
  · simp [Guard.trySet, h]
  · simp [step, Guard.set, h]

/-- Witness for C9 at the guard of the specification scenario: resources
(ptr 1, intVal 3), position 1 overwritten with 7. -/
theorem C9_witness :
    Guard.trySet (construct 0 [Res.ptr 1, Res.intVal 3]) 1 (Res.intVal 7) =
      ({ m_resources := [Res.ptr 1, Res.intVal 7], m_deleter := 0,
         m_released := false }, 0) :=
  (C9_set_frame (fun _ _ => false) (construct 0 [Res.ptr 1, Res.intVal 3])
    1 (Res.intVal 7) rfl).2.1

/-- Claim C10: on a released guard, each failing operation, namely get, set
and steal, raises AlreadyReleased and leaves the entire state of the guard
unchanged: the throw in the source precedes every mutation, and the step
relation maps the instance to itself with no events. -/
theorem C10_failed_ops_frame (fails : Nat → List Res → Bool) (g : Guard)
    (i : Nat) (v : Res) (h : g.m_released = true) :
    g.get i = Except.error GuardError.alreadyReleased ∧
    g.set i v = Except.error GuardError.alreadyReleased ∧
    g.steal = Except.error GuardError.alreadyReleased ∧
    step fails g (Op.getOp i) = (g, []) ∧
    step fails g (Op.setOp i v) = (g, []) ∧
    step fails g Op.steal = (g, []) := by
  refine ⟨?_, ?_, ?_, rfl, ?_, ?_⟩ <;>
    simp [Guard.get, Guard.set, Guard.steal, step, h]

/-- Witness for C10 at a concrete released guard. -/
theorem C10_witness :
    Guard.get (⟨[Res.ptr 1], 0, true⟩ : Guard) 0 =
      Except.error GuardError.alreadyReleased ∧
    Guard.set (⟨[Res.ptr 1], 0, true⟩ : Guard) 0 (Res.ptr 2) =
      Except.error GuardError.alreadyReleased ∧
    Guard.steal (⟨[Res.ptr 1], 0, true⟩ : Guard) =
      Except.error GuardError.alreadyReleased ∧
    step (fun _ _ => false) (⟨[Res.ptr 1], 0, true⟩ : Guard)
      (Op.getOp 0) = ((⟨[Res.ptr 1], 0, true⟩ : Guard), []) ∧
    step (fun _ _ => false) (⟨[Res.ptr 1], 0, true⟩ : Guard)
      (Op.setOp 0 (Res.ptr 2)) = ((⟨[Res.ptr 1], 0, true⟩ : Guard), []) ∧
    step (fun _ _ => false) (⟨[Res.ptr 1], 0, true⟩ : Guard)
      Op.steal = ((⟨[Res.ptr 1], 0, true⟩ : Guard), []) :=
  C10_failed_ops_frame (fun _ _ => false) (⟨[Res.ptr 1], 0, true⟩ : Guard)
    0 (Res.ptr 2) rfl

end ScopedLocalRefSpec
